import Mathlib

/-!
Verification of the filter-and-project pipeline of the property-listings
dashboard (src/app.py). The pipeline filters an in-memory list of listing
records by price range, price-change flag, room type and free-text query,
then emits one map marker (position, popup string, tooltip, icon color)
per surviving listing that has usable coordinates, and finally reports
two counters: number of markers shown and total number of listings.

Numbers are modelled as integers; optional JSON fields as Option. Python
truthiness of an optional number (None and 0 are falsy) is modelled by
the function truthy.
-/

set_option maxRecDepth 16384

namespace PropertyApp

/-- One entry of a price history: a date string and a price. -/
structure PriceEntry where
  date : String
  price : Int
deriving Repr, DecidableEq

/-- One listing record, the shape read from the JSON store. Optional
fields are absent when missing in the source document. -/
structure Listing where
  title : String
  category : String
  county : String
  link : String
  latest_price : Option Int
  avg_price : Option Int
  average_price_per_m2 : Option Int
  size_m2 : Option Int
  latitude : Option Int
  longitude : Option Int
  price_changed : Bool
  price_history : Option (List PriceEntry)
deriving Repr, DecidableEq

/-- The per-request filter configuration collected from the sidebar:
min price, max price, the show-only-changed checkbox, the room-type
selection, and the raw text of the search box. -/
structure FilterConfig where
  min_price : Int
  max_price : Int
  show_changed : Bool
  room_filter : String
  text_search : String
deriving Repr, DecidableEq

/-- Python truthiness of an optional number: None and 0 are falsy. -/
def truthy : Option Int → Bool
  | none => false
  | some n => decide (n ≠ 0)

/-- Does the needle occur as a contiguous run at the front of the
haystack. Model of Python string containment, front case. -/
def listHasPre : List Char → List Char → Bool
  | [], _ => true
  | _ :: _, [] => false
  | a :: p, b :: s => a == b && listHasPre p s

/-- Does the needle occur as a contiguous run anywhere in the haystack. -/
def listHasSub (p : List Char) : List Char → Bool
  | [] => listHasPre p []
  | b :: s => listHasPre p (b :: s) || listHasSub p s

/-- Model of the Python expression needle in hay on strings. -/
def strIn (needle hay : String) : Bool :=
  listHasSub needle.data hay.data

/-- Model of the Python lower method: lower every character. -/
def strLower (s : String) : String :=
  ⟨s.data.map Char.toLower⟩

/-- Model of the Python strip method: remove leading and trailing
whitespace. -/
def strStrip (s : String) : String :=
  ⟨((s.data.dropWhile Char.isWhitespace).reverse.dropWhile Char.isWhitespace).reverse⟩

/-- The lower-cased search blob of a listing, built in the filter loop as
the lowered title, category and county joined by single spaces. -/
def combinedText (l : Listing) : String :=
  strLower l.title ++ " " ++ strLower l.category ++ " " ++ strLower l.county

/-- Price clause, from the line
if not (price and min_price <= price <= max_price): continue.
An absent price and a zero price are both falsy, so both fail. -/
def priceOk (cfg : FilterConfig) (l : Listing) : Bool :=
  match l.latest_price with
  | none => false
  | some p => decide (p ≠ 0) && decide (cfg.min_price ≤ p) && decide (p ≤ cfg.max_price)

/-- Price-change clause, from the line
if show_changed and not l.get(price_changed): continue. -/
def changeOk (cfg : FilterConfig) (l : Listing) : Bool :=
  !(cfg.show_changed && !l.price_changed)

/-- Room-type clause. The code skips the clause when the lowered filter
value equals all; otherwise it drops the listing when the filter value
contains 1 and the lowered category does not, when it contains 2 and the
lowered category does not, or when its lowered form contains garz and
the lowered category does not. -/
def roomOk (cfg : FilterConfig) (l : Listing) : Bool :=
  if strLower cfg.room_filter = "all" then true
  else
    let cat := strLower l.category
    !(strIn "1" cfg.room_filter && !strIn "1" cat) &&
    !(strIn "2" cfg.room_filter && !strIn "2" cat) &&
    !(strIn "garz" (strLower cfg.room_filter) && !strIn "garz" cat)

/-- Text-search clause. The sidebar value is stripped and lowered before
the loop; an empty result disables the clause, otherwise the query must
occur in the combined lowered title, category and county. -/
def textOk (cfg : FilterConfig) (l : Listing) : Bool :=
  let q := strLower (strStrip cfg.text_search)
  if q = "" then true
  else strIn q (combinedText l)

/-- The whole per-listing predicate: the four clauses of the filter loop,
all required (each failing clause issues continue). -/
def matchesPred (cfg : FilterConfig) (l : Listing) : Bool :=
  priceOk cfg l && changeOk cfg l && roomOk cfg l && textOk cfg l

/-- The filtered list built by the loop: the input order is kept, each
listing is appended exactly when every clause passes. -/
def filteredListings (cfg : FilterConfig) (data : List Listing) : List Listing :=
  data.filter (matchesPred cfg)

/-- Render an optional number the way the Python popup f-string does:
str of the value, None when absent. -/
def showOpt : Option Int → String
  | none => "None"
  | some n => toString n

/-- The popup HTML string built for a marker, mirroring the f-string of
the marker loop field by field: title, link, latest price, size, average
price, average price per square metre, county, category. -/
def popupHtml (l : Listing) : String :=
  "<b>" ++ l.title ++ "</b><br>" ++
  "<a href=" ++ l.link ++ ">Open Listing</a><br>" ++
  "<b>Price:</b> " ++ showOpt l.latest_price ++ " €<br>" ++
  "<b>Size:</b> " ++ showOpt l.size_m2 ++ " m²<br>" ++
  "<b>Avg price:</b> " ++ showOpt l.avg_price ++ "<br>" ++
  "<b>Avg price per m²:</b> " ++ showOpt l.average_price_per_m2 ++ "<br>" ++
  "<b>County:</b> " ++ l.county ++ "<br>" ++
  "<b>Category:</b> " ++ l.category ++ "<br>"

/-- One rendered map marker: position, popup string, tooltip, icon
color. -/
structure Marker where
  position : Int × Int
  popup : String
  tooltip : String
  color : String
deriving Repr, DecidableEq

/-- Coordinate gate of the marker loop: the line
if not lat or not lon: continue. Both coordinates must be present and
non-zero. -/
def coordsOk (l : Listing) : Bool :=
  truthy l.latitude && truthy l.longitude

/-- Build the marker of a listing: position from its coordinates, the
popup string, the title as tooltip, red when the price changed and blue
otherwise. Only ever used behind the coordsOk gate, where both
coordinates are present. -/
def mkMarker (l : Listing) : Marker :=
  { position := (l.latitude.getD 0, l.longitude.getD 0)
    popup := popupHtml l
    tooltip := l.title
    color := if l.price_changed then "red" else "blue" }

/-- The body of the marker loop for one listing: skip it when a
coordinate is absent or zero, otherwise emit its marker. -/
def emitMarker (l : Listing) : Option Marker :=
  if coordsOk l then some (mkMarker l) else none

/-- The full marker sequence: the marker loop runs over the filtered
list in order, emitting markers for listings with usable coordinates. -/
def markers (cfg : FilterConfig) (data : List Listing) : List Marker :=
  (filteredListings cfg data).filterMap emitMarker

/-- The shown counter: incremented once per emitted marker. -/
def shownCount (cfg : FilterConfig) (data : List Listing) : Nat :=
  (markers cfg data).length

/-- The two counters of the final summary line: properties displayed
(the shown counter) and total listings in the store. -/
def reportedCounters (cfg : FilterConfig) (data : List Listing) : Nat × Nat :=
  (shownCount cfg data, data.length)

/-- The default configuration of the sidebar widgets: min 0, max 300000,
checkbox off, room filter All, empty search text. -/
def cfgDefault : FilterConfig :=
  { min_price := 0, max_price := 300000, show_changed := false
    room_filter := "All", text_search := "" }

/-- A two-room listing with a valid price and usable coordinates. -/
def listingA : Listing :=
  { title := "Two room flat", category := "2-izbovy", county := "Ruzinov"
    link := "http://example.org/a", latest_price := some 250000
    avg_price := some 240000, average_price_per_m2 := some 3100
    size_m2 := some 60, latitude := some 48, longitude := some 17
    price_changed := false, price_history := none }

/-- The same listing with the latest price absent. -/
def listingNoPrice : Listing := { listingA with latest_price := none }

/-- The same listing with the latest price exactly zero. -/
def listingZeroPrice : Listing := { listingA with latest_price := some 0 }

/-- Scenario C listing: category Garzónka. -/
def listingGarzonka : Listing :=
  { listingA with title := "Small studio", category := "Garzónka" }

/-- A listing whose category holds none of the room tokens. -/
def listingDom : Listing := { listingA with category := "dom" }

/-- Scenario E listing: valid price but both coordinates zero. -/
def listingE : Listing :=
  { listingA with latitude := some 0, longitude := some 0 }

/-- Scenario D listing: changed price with a two-entry price history. -/
def listingD : Listing :=
  { listingA with
    price_changed := true,
    latest_price := some 205000, avg_price := some 204000,
    average_price_per_m2 := some 3000, size_m2 := some 62,
    price_history := some [⟨"2024-01-05", 210000⟩, ⟨"2024-03-09", 199000⟩] }

/-- Default configuration with the room filter set to Garzónky. -/
def cfgGarzonky : FilterConfig := { cfgDefault with room_filter := "Garzónky" }

/-- Default configuration with the room filter set to 2. -/
def cfgRoom2 : FilterConfig := { cfgDefault with room_filter := "2" }

/-- Default configuration with an unrecognized room filter value that
contains the digit 1. -/
def cfgRoom1x : FilterConfig := { cfgDefault with room_filter := "1x" }

/-- Default configuration with the price-change checkbox on. -/
def cfgOnlyChanged : FilterConfig := { cfgDefault with show_changed := true }

theorem matchesPred_eq_true_iff (cfg : FilterConfig) (l : Listing) :
    matchesPred cfg l = true ↔
      priceOk cfg l = true ∧ changeOk cfg l = true ∧
      roomOk cfg l = true ∧ textOk cfg l = true := by
  simp [matchesPred, Bool.and_eq_true, and_assoc]

/-- Claim C1: a listing is matched only if its latest price is present
and lies between min price and max price; a listing with no latest
price is excluded for every configuration. -/
theorem price_presence_necessary (cfg : FilterConfig) (l : Listing) :
    (matchesPred cfg l = true →
      ∃ p, l.latest_price = some p ∧ cfg.min_price ≤ p ∧ p ≤ cfg.max_price) ∧
    (l.latest_price = none → matchesPred cfg l = false) := by
  constructor
  · intro h
    have hp : priceOk cfg l = true := ((matchesPred_eq_true_iff cfg l).mp h).1
    unfold priceOk at hp
    cases hpe : l.latest_price with
    | none => rw [hpe] at hp; exact absurd hp (by simp)
    | some p =>
      rw [hpe] at hp
      simp only [Bool.and_eq_true, decide_eq_true_eq] at hp
      exact ⟨p, rfl, hp.1.2, hp.2⟩
  · intro h
    simp [matchesPred, priceOk, h]

theorem price_presence_necessary_witness :
    (∃ p, listingA.latest_price = some p ∧
      cfgDefault.min_price ≤ p ∧ p ≤ cfgDefault.max_price) ∧
    matchesPred cfgDefault listingNoPrice = false :=
  ⟨(price_presence_necessary cfgDefault listingA).1 (by decide),
   (price_presence_necessary cfgDefault listingNoPrice).2 (by decide)⟩

/-- Claim C7: enlarging the price interval keeps every previously
matched listing matched, and a listing that failed a clause other than
the price clause stays excluded under the widened configuration. -/
theorem price_widening_monotone (cfg : FilterConfig) (l : Listing) (m M : Int)
    (hm : m ≤ cfg.min_price) (hM : cfg.max_price ≤ M) :
    (matchesPred cfg l = true →
      matchesPred { cfg with min_price := m, max_price := M } l = true) ∧
    ((changeOk cfg l = false ∨ roomOk cfg l = false ∨ textOk cfg l = false) →
      matchesPred { cfg with min_price := m, max_price := M } l = false) := by
  have hch : changeOk { cfg with min_price := m, max_price := M } l = changeOk cfg l := rfl
  have hro : roomOk { cfg with min_price := m, max_price := M } l = roomOk cfg l := rfl
  have hte : textOk { cfg with min_price := m, max_price := M } l = textOk cfg l := rfl
  have hpr : priceOk cfg l = true →
      priceOk { cfg with min_price := m, max_price := M } l = true := by
    intro h
    unfold priceOk at h ⊢
    cases hpe : l.latest_price with
    | none => rw [hpe] at h; exact absurd h (by simp)
    | some p =>
      rw [hpe] at h
      simp only [Bool.and_eq_true, decide_eq_true_eq] at h ⊢
      exact ⟨⟨h.1.1, le_trans hm h.1.2⟩, le_trans h.2 hM⟩
  constructor
  · intro h
    have h4 := (matchesPred_eq_true_iff cfg l).mp h
    exact (matchesPred_eq_true_iff _ l).mpr ⟨hpr h4.1, by rw [hch]; exact h4.2.1,
      by rw [hro]; exact h4.2.2.1, by rw [hte]; exact h4.2.2.2⟩
  · intro h
    rcases h with h | h | h
    · simp [matchesPred, hch, h]
    · simp [matchesPred, hro, h]
    · simp [matchesPred, hte, h]

theorem price_widening_monotone_witness :
    (-1000 : Int) ≤ cfgDefault.min_price ∧
    cfgDefault.max_price ≤ (400000 : Int) ∧
    matchesPred { cfgDefault with min_price := -1000, max_price := 400000 } listingA = true :=
  ⟨by decide, by decide,
   (price_widening_monotone cfgDefault listingA (-1000) 400000
      (by decide) (by decide)).1 (by decide)⟩

/-- Claim C8: when min price exceeds max price no listing passes the
filter, so the matched set is empty for every input sequence. -/
theorem min_gt_max_empty (cfg : FilterConfig) (data : List Listing)
    (h : cfg.min_price > cfg.max_price) :
    filteredListings cfg data = [] := by
  unfold filteredListings
  rw [List.filter_eq_nil_iff]
  intro l _
  intro hc
  have hp : priceOk cfg l = true := ((matchesPred_eq_true_iff cfg l).mp hc).1
  unfold priceOk at hp
  cases hpe : l.latest_price with
  | none => rw [hpe] at hp; exact absurd hp (by simp)
  | some p =>
    rw [hpe] at hp
    simp only [Bool.and_eq_true, decide_eq_true_eq] at hp
    omega

theorem min_gt_max_empty_witness :
    ({ cfgDefault with min_price := 10, max_price := 5 } : FilterConfig).min_price >
      ({ cfgDefault with min_price := 10, max_price := 5 } : FilterConfig).max_price ∧
    filteredListings { cfgDefault with min_price := 10, max_price := 5 } [listingA] = [] :=
  ⟨by decide,
   min_gt_max_empty { cfgDefault with min_price := 10, max_price := 5 } [listingA] (by decide)⟩

/-- Claim C9: the matched sequence is a sublist of the input sequence,
and the marker sequence is a sublist of the marker projection of the
whole input, so the output keeps the input order with no re-sorting and
no duplication. -/
theorem output_order_stable (cfg : FilterConfig) (data : List Listing) :
    (filteredListings cfg data).Sublist data ∧
    (markers cfg data).Sublist (data.filterMap emitMarker) :=
  ⟨List.filter_sublist data, (List.filter_sublist data).filterMap emitMarker⟩

/-- Claim C10: a present price of exactly zero is excluded even when the
configured interval contains zero, because a zero price is falsy in the
price clause just like an absent one. -/
theorem zero_price_excluded (cfg : FilterConfig) (l : Listing)
    (_hmin : cfg.min_price ≤ 0) (_hmax : 0 ≤ cfg.max_price)
    (hp : l.latest_price = some 0) :
    matchesPred cfg l = false := by
  simp [matchesPred, priceOk, hp]

theorem zero_price_excluded_witness :
    cfgDefault.min_price ≤ 0 ∧ (0 : Int) ≤ cfgDefault.max_price ∧
    listingZeroPrice.latest_price = some 0 ∧
    matchesPred cfgDefault listingZeroPrice = false :=
  ⟨by decide, by decide, by decide,
   zero_price_excluded cfgDefault listingZeroPrice (by decide) (by decide) (by decide)⟩

/-- Default configuration whose search text is Ruzinov. -/
def cfgText : FilterConfig := { cfgDefault with text_search := "Ruzinov" }

/-- Default configuration with an unrecognized room filter value that
contains none of the tokens 1, 2 and garz. -/
def cfgRoomFlat : FilterConfig := { cfgDefault with room_filter := "flat" }

/-- Claim C4: under room filter 1, 2 or Garzónky a matched listing must
carry the token 1, 2 or garz respectively in its lowered category, and
the Garzónka listing matches under Garzónky but not under 2. -/
theorem room_filter_token_necessary (cfg : FilterConfig) (l : Listing) :
    (cfg.room_filter = "1" → matchesPred cfg l = true →
      strIn "1" (strLower l.category) = true) ∧
    (cfg.room_filter = "2" → matchesPred cfg l = true →
      strIn "2" (strLower l.category) = true) ∧
    (cfg.room_filter = "Garzónky" → matchesPred cfg l = true →
      strIn "garz" (strLower l.category) = true) ∧
    matchesPred cfgGarzonky listingGarzonka = true ∧
    matchesPred cfgRoom2 listingGarzonka = false := by
  refine ⟨?_, ?_, ?_, by decide, by decide⟩
  · intro hrf h
    have hroom : roomOk cfg l = true := ((matchesPred_eq_true_iff cfg l).mp h).2.2.1
    unfold roomOk at hroom
    rw [hrf] at hroom
    rw [if_neg (by decide)] at hroom
    simp [show strIn "1" ("1" : String) = true from by decide,
      show strIn "2" ("1" : String) = false from by decide,
      show strIn "garz" (strLower "1") = false from by decide] at hroom
    exact hroom
  · intro hrf h
    have hroom : roomOk cfg l = true := ((matchesPred_eq_true_iff cfg l).mp h).2.2.1
    unfold roomOk at hroom
    rw [hrf] at hroom
    rw [if_neg (by decide)] at hroom
    simp [show strIn "1" ("2" : String) = false from by decide,
      show strIn "2" ("2" : String) = true from by decide,
      show strIn "garz" (strLower "2") = false from by decide] at hroom
    exact hroom
  · intro hrf h
    have hroom : roomOk cfg l = true := ((matchesPred_eq_true_iff cfg l).mp h).2.2.1
    unfold roomOk at hroom
    rw [hrf] at hroom
    rw [if_neg (by decide)] at hroom
    simp [show strIn "1" ("Garzónky" : String) = false from by decide,
      show strIn "2" ("Garzónky" : String) = false from by decide,
      show strIn "garz" (strLower "Garzónky") = true from by decide] at hroom
    exact hroom

theorem room_filter_token_necessary_witness :
    strIn "garz" (strLower listingGarzonka.category) = true ∧
    strIn "2" (strLower listingA.category) = true :=
  ⟨(room_filter_token_necessary cfgGarzonky listingGarzonka).2.2.1 rfl (by decide),
   (room_filter_token_necessary cfgRoom2 listingA).2.1 rfl (by decide)⟩

/-- Claim C5: with a non-empty search text a matched listing must
contain the stripped and lowered query as a substring of the lowered
title, category and county joined by single spaces; an empty search
text disables the clause entirely. -/
theorem text_query_substring_necessary (cfg : FilterConfig) (l : Listing) :
    (strLower (strStrip cfg.text_search) ≠ "" → matchesPred cfg l = true →
      strIn (strLower (strStrip cfg.text_search)) (combinedText l) = true) ∧
    (cfg.text_search = "" → textOk cfg l = true) := by
  constructor
  · intro hq h
    have ht : textOk cfg l = true := ((matchesPred_eq_true_iff cfg l).mp h).2.2.2
    simp only [textOk] at ht
    rw [if_neg hq] at ht
    exact ht
  · intro h
    simp only [textOk]
    rw [h]
    rfl

theorem text_query_substring_necessary_witness :
    strLower (strStrip cfgText.text_search) ≠ "" ∧
    strIn (strLower (strStrip cfgText.text_search)) (combinedText listingA) = true ∧
    cfgDefault.text_search = "" ∧
    textOk cfgDefault listingA = true :=
  ⟨by decide,
   (text_query_substring_necessary cfgText listingA).1 (by decide) (by decide),
   rfl,
   (text_query_substring_necessary cfgDefault listingA).2 rfl⟩

/-- Claim C6 counterexample: the unrecognized room filter value 1x does
not behave like All: the dom listing matches when the room filter is
All and is excluded when it is 1x, all other fields equal. -/
theorem unknown_room_filter_counterexample :
    matchesPred cfgRoom1x listingDom = false ∧
    matchesPred { cfgRoom1x with room_filter := "All" } listingDom = true :=
  ⟨by decide, by decide⟩

/-- Claim C6 amended: a room filter value containing none of the tokens
1, 2 and garz behaves exactly like All, whatever the value is; an
unrecognized value containing one of the tokens instead applies the
corresponding category check. The predicate is a total function, so no
filter value makes the pipeline fail. -/
theorem unknown_room_filter_amended (cfg : FilterConfig) (l : Listing)
    (h1 : strIn "1" cfg.room_filter = false)
    (h2 : strIn "2" cfg.room_filter = false)
    (h3 : strIn "garz" (strLower cfg.room_filter) = false) :
    matchesPred cfg l = matchesPred { cfg with room_filter := "All" } l := by
  have hro : roomOk cfg l = true := by
    unfold roomOk
    by_cases hall : strLower cfg.room_filter = "all"
    · rw [if_pos hall]
    · rw [if_neg hall]
      simp [h1, h2, h3]
  have hro2 : roomOk { cfg with room_filter := "All" } l = true := rfl
  have hpr : priceOk { cfg with room_filter := "All" } l = priceOk cfg l := rfl
  have hch : changeOk { cfg with room_filter := "All" } l = changeOk cfg l := rfl
  have hte : textOk { cfg with room_filter := "All" } l = textOk cfg l := rfl
  unfold matchesPred
  rw [hro, hro2, hpr, hch, hte]

theorem unknown_room_filter_amended_witness :
    strIn "1" cfgRoomFlat.room_filter = false ∧
    strIn "2" cfgRoomFlat.room_filter = false ∧
    strIn "garz" (strLower cfgRoomFlat.room_filter) = false ∧
    matchesPred cfgRoomFlat listingDom =
      matchesPred { cfgRoomFlat with room_filter := "All" } listingDom :=
  ⟨by decide, by decide, by decide,
   unknown_room_filter_amended cfgRoomFlat listingDom (by decide) (by decide) (by decide)⟩

/-- Claim C2 counterexample: the Scenario E listing matches and is the
single element of the matched set, yet no marker is emitted and the
first reported counter is 0, not 1: a matched listing without usable
coordinates is not counted in the first output counter. -/
theorem shown_counter_counterexample :
    matchesPred cfgDefault listingE = true ∧
    filteredListings cfgDefault [listingE] = [listingE] ∧
    markers cfgDefault [listingE] = [] ∧
    reportedCounters cfgDefault [listingE] = (0, 1) :=
  ⟨by decide, by decide, by decide, by decide⟩

/-- Claim C2 amended: a matched listing whose latitude or longitude is
absent or zero emits no marker and stays in the matched sequence, but
the first reported counter counts emitted markers only, so it is not
counted there: prepending such a listing leaves the counter unchanged. -/
theorem coords_missing_not_counted (cfg : FilterConfig) (l : Listing)
    (data : List Listing)
    (hm : matchesPred cfg l = true) (hc : coordsOk l = false) :
    emitMarker l = none ∧
    l ∈ filteredListings cfg (l :: data) ∧
    shownCount cfg (l :: data) = shownCount cfg data := by
  have he : emitMarker l = none := by simp [emitMarker, hc]
  refine ⟨he, ?_, ?_⟩
  · simp [filteredListings, List.filter_cons, hm]
  · simp [shownCount, markers, filteredListings, List.filter_cons, hm,
      List.filterMap_cons, he]

theorem coords_missing_not_counted_witness :
    matchesPred cfgDefault listingE = true ∧ coordsOk listingE = false ∧
    (emitMarker listingE = none ∧
     listingE ∈ filteredListings cfgDefault [listingE] ∧
     shownCount cfgDefault [listingE] = shownCount cfgDefault []) :=
  ⟨by decide, by decide,
   coords_missing_not_counted cfgDefault listingE [] (by decide) (by decide)⟩

/-- Claim C3 counterexample: the Scenario D listing matches with the
change filter on and its marker is emitted, its history holds the dates
2024-01-05 and 2024-03-09 with prices 210000 and 199000, yet none of
those four values occurs anywhere in the popup string, so the popup
does not carry the history entries. -/
theorem popup_history_counterexample :
    matchesPred cfgOnlyChanged listingD = true ∧
    listingD.price_history =
      some [⟨"2024-01-05", 210000⟩, ⟨"2024-03-09", 199000⟩] ∧
    markers cfgOnlyChanged [listingD] = [mkMarker listingD] ∧
    strIn "2024-01-05" (popupHtml listingD) = false ∧
    strIn "2024-03-09" (popupHtml listingD) = false ∧
    strIn "210000" (popupHtml listingD) = false ∧
    strIn "199000" (popupHtml listingD) = false :=
  ⟨by decide, by decide, by decide, by decide, by decide, by decide, by decide⟩

/-- Claim C3 amended: the popup string never depends on the price
history, carrying only title, link, latest price, size, the two average
prices, county and category; in Scenario D the listing matches and its
marker is emitted with the red highlight, but its popup carries no
history entries. -/
theorem popup_ignores_price_history :
    (∀ (l : Listing) (h : Option (List PriceEntry)),
      popupHtml { l with price_history := h } = popupHtml l) ∧
    matchesPred cfgOnlyChanged listingD = true ∧
    markers cfgOnlyChanged [listingD] = [mkMarker listingD] ∧
    (mkMarker listingD).color = "red" :=
  ⟨fun _ _ => rfl, by decide, by decide, by decide⟩

end PropertyApp
